import Mathlib

/-!
Verification development for the prompt-enhancer repository.

The repository has two code units:

* `api/enhancePrompt.js` — a stateless serverless request handler that
  validates an inbound HTTP request, builds an instruction string, submits
  one chat-completion request to an external API, and maps the outcome to
  an HTTP response.
* the client script embedded in `prompt-enhancer-tasks.md` — a form
  controller that trims the textarea, alerts locally on an empty prompt,
  enters a busy visual state, issues one fetch, and clears the busy state
  in a `finally` block.

Both are shallowly embedded below.  JavaScript numbers are modelled as
exact rationals (the claims only compare the literal 0.7 against values of
the form n/10, where exact and IEEE-754 comparison agree).  JavaScript
exceptions inside the handler `try` block are modelled with `Except`: the
OpenAI constructor and the completion call are the two effectful steps that
can throw, and both are parameters of the embedded handler.
-/

/-- JavaScript values as they occur in this codebase: the primitives, plus
a request-body object holding the three fields the handler destructures
(`prompt`, `style`, `creativity`); a missing field is `none`. -/
inductive JSVal where
  | undefined
  | null
  | jbool (b : Bool)
  | jnum (q : ℚ)
  | jstr (s : String)
  | obj (promptF styleF creativityF : Option JSVal)

/-- JavaScript truthiness.  `undefined`, `null`, `false`, `0` and the empty
string are falsy; every object (even an empty one) is truthy. -/
def truthy : JSVal → Bool
  | .undefined => false
  | .null => false
  | .jbool b => b
  | .jnum q => q != 0
  | .jstr s => s != ""
  | .obj _ _ _ => true

/-- JavaScript Number-to-String conversion, exact on the integral values
the code paths under verification produce. -/
def jsNumToString (q : ℚ) : String :=
  if q.den = 1 then toString q.num else toString q

/-- JavaScript template-literal stringification of a value. -/
def jsToString : JSVal → String
  | .undefined => "undefined"
  | .null => "null"
  | .jbool b => if b then "true" else "false"
  | .jnum q => jsNumToString q
  | .jstr s => s
  | .obj _ _ _ => "[object Object]"

/-- JavaScript object destructuring `const ... = v`: throws a TypeError on
`undefined` or `null`, reads own properties of an object, and yields
`undefined` for every field of a (coerced) primitive. -/
def jsDestructure : JSVal → Except String (JSVal × JSVal × JSVal)
  | .undefined => .error "TypeError: cannot destructure"
  | .null => .error "TypeError: cannot destructure"
  | .obj p s c => .ok (p.getD .undefined, s.getD .undefined, c.getD .undefined)
  | _ => .ok (.undefined, .undefined, .undefined)

/-- One role-tagged message of the outbound completion request.  The user
message carries the raw request `prompt` value unmodified, so the content
is a `JSVal`. -/
structure ChatMessage where
  role : String
  content : JSVal

/-- The payload of `openai.chat.completions.create` as the handler builds
it: a model identifier, an ordered message list, and a temperature. -/
structure CompletionRequest where
  model : String
  messages : List ChatMessage
  temperature : ℚ

/-- The `message` object of one returned choice; `content` may be absent. -/
structure ChoiceMessage where
  content : Option String

/-- One returned choice; its `message` may be absent. -/
structure Choice where
  message : Option ChoiceMessage

/-- The external completion response; `choices` itself may be absent,
which the handler tolerates through optional chaining. -/
structure CompletionResponse where
  choices : Option (List Choice)

/-- The two effectful steps inside the handler `try` block that can throw:
`new OpenAI(...)` (for example when the credential is absent) and the
completion call itself.  An `Except.error` value carries the thrown error
message. -/
structure Effects where
  ctorResult : Except String Unit
  api : CompletionRequest → Except String CompletionResponse

/-- A JSON response body of the endpoint: either an `error` field or an
`enhancedPrompt` field. -/
inductive ResponseBody where
  | errorMsg (msg : String)
  | enhanced (enhancedPrompt : String)

/-- An HTTP response of the endpoint: status code and optional JSON body
(`none` models `res.end()` with no body). -/
structure HttpResponse where
  status : Nat
  body : Option ResponseBody

/-- The observable outcome of one handler invocation: the HTTP response
and the list of completion requests submitted to the external API. -/
structure HandlerResult where
  resp : HttpResponse
  calls : List CompletionRequest

/-- The instruction string the handler builds, embedding the request
`style` and `creativity` values through template-literal interpolation. -/
def enhancementInstruction (styleF creativityF : JSVal) : String :=
  "Enhance the following prompt using " ++ jsToString styleF ++
  " style with creativity level " ++ jsToString creativityF ++
  "/10.\nApply prompt engineering best practices to make it more effective for AI interaction.\nReturn only the enhanced prompt without any additional explanations."

/-- The completion request the handler submits: empty model identifier,
a system message carrying the instruction, a user message carrying the raw
prompt, and the literal temperature 0.7. -/
def buildRequest (promptF styleF creativityF : JSVal) : CompletionRequest :=
  { model := ""
  , messages :=
      [ { role := "system", content := .jstr (enhancementInstruction styleF creativityF) }
      , { role := "user", content := promptF } ]
  , temperature := 0.7 }

/-- Extraction `completion.choices?.[0]?.message?.content || ''`. -/
def extractContent (completion : CompletionResponse) : String :=
  ((((completion.choices.bind List.head?).bind Choice.message).bind
      ChoiceMessage.content).getD "")

/-- Shallow embedding of the exported handler in `api/enhancePrompt.js`:
OPTIONS short-circuits with 200 and no body; any other non-POST method
gets 405; then, inside the `try` block, the body (defaulted to an empty
object when falsy) is destructured, a falsy `prompt` gets 400, the OpenAI
client is constructed, one completion request is submitted, and the first
choice content (or empty string) is returned with 200; any throw inside
the `try` block is caught and mapped to a generic 500. -/
def enhancePromptHandler (method : String) (reqBody : JSVal) (eff : Effects) :
    HandlerResult :=
  if method = "OPTIONS" then
    ⟨⟨200, none⟩, []⟩
  else if method ≠ "POST" then
    ⟨⟨405, some (.errorMsg "Method not allowed")⟩, []⟩
  else
    match jsDestructure (if truthy reqBody then reqBody else .obj none none none) with
    | .error _ => ⟨⟨500, some (.errorMsg "Failed to enhance prompt")⟩, []⟩
    | .ok (promptF, styleF, creativityF) =>
      if ! truthy promptF then
        ⟨⟨400, some (.errorMsg "Missing prompt")⟩, []⟩
      else
        match eff.ctorResult with
        | .error _ => ⟨⟨500, some (.errorMsg "Failed to enhance prompt")⟩, []⟩
        | .ok _ =>
          let request := buildRequest promptF styleF creativityF
          match eff.api request with
          | .error _ => ⟨⟨500, some (.errorMsg "Failed to enhance prompt")⟩, [request]⟩
          | .ok completion =>
            ⟨⟨200, some (.enhanced (extractContent completion))⟩, [request]⟩

/-- Effects in which construction succeeds and the external API returns a
response with no choices. -/
def stubEffects : Effects := ⟨.ok (), fun _ => .ok ⟨none⟩⟩

/-- Effects in which construction succeeds and the external API rejects. -/
def failEffects : Effects := ⟨.ok (), fun _ => .error "boom"⟩

/-- A concrete successful completion response with one choice. -/
def respWitness : CompletionResponse :=
  ⟨some [{ message := some { content := some "Enhanced!" } }]⟩

/-- Effects in which the external API returns `respWitness`. -/
def okEffects : Effects := ⟨.ok (), fun _ => .ok respWitness⟩

/-! ## Client form controller (script embedded in prompt-enhancer-tasks.md) -/

/-- The DOM state the client controller reads and writes.  The creativity
range-input value is modelled already converted to a number, as
`Number(creativityEl.value)` produces it. -/
structure ClientState where
  promptValue : String
  styleValue : String
  creativityValue : ℚ
  loaderHidden : Bool
  enhanceDisabled : Bool
  resultText : String
  alerts : List String

/-- The JSON payload the client POSTs to `/api/enhancePrompt`. -/
structure FetchRequest where
  prompt : String
  styleF : String
  creativity : ℚ

/-- The decoded JSON body of an endpoint response as the client reads it;
either field may be absent. -/
structure ClientJson where
  enhancedPrompt : Option String
  error : Option String

/-- The outcome of one client fetch: a response with an ok-flag whose body
decoding may itself reject, or a transport-level rejection. -/
inductive FetchOutcome where
  | response (ok : Bool) (jsonResult : Except String ClientJson)
  | reject (msg : String)

/-- JavaScript `value.trim()`: remove leading and trailing whitespace. -/
def jsTrim (s : String) : String :=
  ⟨((s.data.dropWhile Char.isWhitespace).reverse.dropWhile Char.isWhitespace).reverse⟩

/-- JavaScript `v || dflt` on an optional string field: absent or empty
yields the default. -/
def jsOr (v : Option String) (dflt : String) : String :=
  match v with
  | some s => if s = "" then dflt else s
  | none => dflt

/-- Shallow embedding of the client function `enhancePrompt` in the
embedded `js/script.js`: trim the textarea, alert and stop if empty, enter
the busy state, fetch once, render the result or an error or the network
failure message, and clear the busy state in the `finally` block.  Returns
the final DOM state and the list of network calls issued. -/
def enhancePromptClient (st : ClientState) (doFetch : FetchRequest → FetchOutcome) :
    ClientState × List FetchRequest :=
  let promptT := jsTrim st.promptValue
  if promptT = "" then
    ({ st with alerts := st.alerts ++ ["Please enter a prompt."] }, [])
  else
    let busy := { st with loaderHidden := false, enhanceDisabled := true }
    let req : FetchRequest := ⟨promptT, st.styleValue, st.creativityValue⟩
    let afterTry :=
      match doFetch req with
      | .reject _ => { busy with resultText := "Network error" }
      | .response ok jsonResult =>
        match jsonResult with
        | .error _ => { busy with resultText := "Network error" }
        | .ok data =>
          if ok then { busy with resultText := jsOr data.enhancedPrompt "No result" }
          else { busy with resultText := jsOr data.error "Failed to enhance prompt" }
    ({ afterTry with loaderHidden := true, enhanceDisabled := false }, [req])

/-! ## Claims -/

/-- Claim C1 (code bug): the spec and the repository README both say the
temperature sent to the external API is `creativity / 10` with default
0.5, but `api/enhancePrompt.js` hardcodes `temperature: 0.7`.  At the
concrete request prompt "Write a poem", style "creative", creativity 8,
the single submitted completion request carries temperature 0.7, which
differs from the documented 8/10. -/
theorem C1_temperature_hardcoded :
    (enhancePromptHandler "POST"
        (.obj (some (.jstr "Write a poem")) (some (.jstr "creative")) (some (.jnum 8)))
        stubEffects).calls.map CompletionRequest.temperature = [0.7]
      ∧ (0.7 : ℚ) ≠ 8 / 10 := by
  constructor
  · rfl
  · norm_num

/-- Claim C2 counterexample: a POST whose prompt is the whitespace-only
string " " is NOT rejected with 400 — the string " " is truthy, the
handler proceeds, responds 200, and submits one external API call. -/
theorem C2_counterexample :
    (enhancePromptHandler "POST" (.obj (some (.jstr " ")) none none)
        stubEffects).resp.status = 200
      ∧ (enhancePromptHandler "POST" (.obj (some (.jstr " ")) none none)
        stubEffects).calls.length = 1 :=
  ⟨rfl, rfl⟩

/-- Claim C2 as amended: for every POST request whose body object has the
prompt field absent or falsy (in particular absent or the empty string —
no trimming is performed, so whitespace-only prompts are NOT covered), the
endpoint responds 400 with error "Missing prompt" and makes no call to the
external completion API. -/
theorem C2_falsy_prompt_rejected (p s c : Option JSVal) (eff : Effects)
    (h : truthy (p.getD .undefined) = false) :
    enhancePromptHandler "POST" (.obj p s c) eff =
      ⟨⟨400, some (.errorMsg "Missing prompt")⟩, []⟩ := by
  have ht : truthy (JSVal.obj p s c) = true := rfl
  simp [enhancePromptHandler, jsDestructure, ht, h]

/-- Claim C2 witness: the amended theorem at the concrete empty-string
prompt. -/
theorem C2_witness :
    enhancePromptHandler "POST" (.obj (some (.jstr "")) none none) stubEffects =
      ⟨⟨400, some (.errorMsg "Missing prompt")⟩, []⟩ :=
  C2_falsy_prompt_rejected (some (.jstr "")) none none stubEffects rfl

/-- Claim C3: every completion request the handler actually submits to the
external API carries the empty string as its model identifier, whatever
the method, body and effects. -/
theorem C3_model_empty (method : String) (reqBody : JSVal) (eff : Effects)
    (r : CompletionRequest) (hr : r ∈ (enhancePromptHandler method reqBody eff).calls) :
    r.model = "" := by
  unfold enhancePromptHandler at hr
  repeat' split at hr
  all_goals try simp_all [buildRequest]
  split at hr
  all_goals simp_all [buildRequest]

/-- Claim C3 witness: the model identifier of the one call submitted for a
concrete POST with prompt "hi" is the empty string. -/
theorem C3_witness :
    (buildRequest (.jstr "hi") .undefined .undefined).model = "" :=
  C3_model_empty "POST" (.obj (some (.jstr "hi")) none none) stubEffects
    (buildRequest (.jstr "hi") .undefined .undefined) (by
      have h : (enhancePromptHandler "POST" (.obj (some (.jstr "hi")) none none)
          stubEffects).calls = [buildRequest (.jstr "hi") .undefined .undefined] := rfl
      rw [h]
      exact List.mem_singleton_self _)

/-- Claim C4: for a POST whose prompt field is truthy, if the OpenAI
client constructor throws or the external completion call rejects — the
two effectful steps of the try block — the response is exactly 500 with
the literal body error "Failed to enhance prompt"; the triggering error
message e never influences the body, which is this fixed literal. -/
theorem C4_generic_500 (p : JSVal) (s c : Option JSVal) (eff : Effects)
    (hp : truthy p = true)
    (herr : (∃ e, eff.ctorResult = .error e)
      ∨ (∃ e, eff.api (buildRequest p (s.getD .undefined) (c.getD .undefined)) = .error e)) :
    (enhancePromptHandler "POST" (.obj (some p) s c) eff).resp =
      ⟨500, some (.errorMsg "Failed to enhance prompt")⟩ := by
  have ht : truthy (JSVal.obj (some p) s c) = true := rfl
  rcases herr with ⟨e, he⟩ | ⟨e, he⟩
  · simp [enhancePromptHandler, jsDestructure, ht, hp, he]
  · rcases hctor : eff.ctorResult with e2 | u
    · simp [enhancePromptHandler, jsDestructure, ht, hp, hctor]
    · simp [enhancePromptHandler, jsDestructure, ht, hp, hctor, he]

/-- Claim C4 witness: the concrete POST with prompt "hi" under effects
whose completion call rejects with message "boom" yields the generic 500
response. -/
theorem C4_witness :
    (enhancePromptHandler "POST" (.obj (some (.jstr "hi")) none none) failEffects).resp =
      ⟨500, some (.errorMsg "Failed to enhance prompt")⟩ :=
  C4_generic_500 (.jstr "hi") none none failEffects rfl (Or.inr ⟨"boom", rfl⟩)

/-- Claim C5: for a POST whose prompt field is truthy, when the external
completion call returns normally with response resp, the endpoint responds
200 with body enhancedPrompt whose value is extracted from resp; that
value is the first choice message content when one exists, is the empty
string otherwise, and in particular is empty when choices is absent or the
choice list is empty. -/
theorem C5_success_enhancedPrompt (p : JSVal) (s c : Option JSVal) (eff : Effects)
    (resp : CompletionResponse)
    (hp : truthy p = true) (hctor : eff.ctorResult = .ok ())
    (hapi : eff.api (buildRequest p (s.getD .undefined) (c.getD .undefined)) = .ok resp) :
    (enhancePromptHandler "POST" (.obj (some p) s c) eff).resp =
        ⟨200, some (.enhanced (extractContent resp))⟩
      ∧ ((∃ ch rest m, resp.choices = some (ch :: rest) ∧ ch.message = some m
            ∧ m.content = some (extractContent resp))
         ∨ extractContent resp = "")
      ∧ (resp.choices = none → extractContent resp = "")
      ∧ (resp.choices = some [] → extractContent resp = "") := by
  have ht : truthy (JSVal.obj (some p) s c) = true := rfl
  refine ⟨?_, ?_, ?_, ?_⟩
  · simp [enhancePromptHandler, jsDestructure, ht, hp, hctor, hapi]
  · rcases hch : resp.choices with _ | ⟨_ | ⟨ch, rest⟩⟩
    · right; simp [extractContent, hch]
    · right; simp [extractContent, hch]
    · rcases hm : ch.message with _ | m
      · right; simp [extractContent, hch, hm]
      · rcases hc2 : m.content with _ | t
        · right; simp [extractContent, hch, hm, hc2]
        · exact Or.inl ⟨ch, rest, m, by simp [hch], by simp [hm],
            by simp [extractContent, hch, hm, hc2]⟩
  · intro hn; simp [extractContent, hn]
  · intro hn; simp [extractContent, hn]

/-- Claim C5 witness: the concrete POST with prompt "Write a poem" under
effects whose completion call returns one choice with content
"Enhanced!". -/
theorem C5_witness :
    (enhancePromptHandler "POST"
        (.obj (some (.jstr "Write a poem")) (some (.jstr "creative")) (some (.jnum 8)))
        okEffects).resp =
        ⟨200, some (.enhanced (extractContent respWitness))⟩
      ∧ ((∃ ch rest m, respWitness.choices = some (ch :: rest) ∧ ch.message = some m
            ∧ m.content = some (extractContent respWitness))
         ∨ extractContent respWitness = "")
      ∧ (respWitness.choices = none → extractContent respWitness = "")
      ∧ (respWitness.choices = some [] → extractContent respWitness = "") :=
  C5_success_enhancedPrompt (.jstr "Write a poem") (some (.jstr "creative"))
    (some (.jnum 8)) okEffects respWitness rfl rfl rfl

/-- Claim C6: method precedence — an OPTIONS request gets 200 with no
body, any method that is neither OPTIONS nor POST gets 405 with error
"Method not allowed", and in both cases no external API call is made. -/
theorem C6_method_precedence (method : String) (reqBody : JSVal) (eff : Effects)
    (h : method ≠ "POST") :
    enhancePromptHandler method reqBody eff =
      ⟨⟨if method = "OPTIONS" then 200 else 405,
        if method = "OPTIONS" then none else some (.errorMsg "Method not allowed")⟩,
       []⟩ := by
  by_cases ho : method = "OPTIONS" <;> simp [enhancePromptHandler, ho, h]

/-- Claim C6 witness: the concrete OPTIONS request gets 200 with no body
and no external call. -/
theorem C6_witness :
    enhancePromptHandler "OPTIONS" .undefined stubEffects =
      ⟨⟨if "OPTIONS" = "OPTIONS" then 200 else 405,
        if "OPTIONS" = "OPTIONS" then none else some (.errorMsg "Method not allowed")⟩,
       []⟩ :=
  C6_method_precedence "OPTIONS" .undefined stubEffects (by decide)

/-- Claim C7: for a POST whose prompt field is truthy (and whose client
construction succeeds), the handler submits exactly one completion
request; its message list is a system message carrying the single
instruction string — with the style and creativity values interpolated
verbatim — followed by a user message carrying the raw, unmodified
prompt value. -/
theorem C7_single_request_messages (p styleV creativityV : JSVal) (eff : Effects)
    (hp : truthy p = true) (hctor : eff.ctorResult = .ok ()) :
    (enhancePromptHandler "POST" (.obj (some p) (some styleV) (some creativityV)) eff).calls =
      [{ model := ""
       , messages :=
          [ { role := "system", content := .jstr ("Enhance the following prompt using "
                ++ jsToString styleV ++ " style with creativity level "
                ++ jsToString creativityV
                ++ "/10.\nApply prompt engineering best practices to make it more effective for AI interaction.\nReturn only the enhanced prompt without any additional explanations.") }
          , { role := "user", content := p } ]
       , temperature := 0.7 }] := by
  have ht : truthy (JSVal.obj (some p) (some styleV) (some creativityV)) = true := rfl
  have hcalls : (enhancePromptHandler "POST"
      (.obj (some p) (some styleV) (some creativityV)) eff).calls
        = [buildRequest p styleV creativityV] := by
    rcases hapi : eff.api (buildRequest p styleV creativityV) with e | comp <;>
      simp [enhancePromptHandler, jsDestructure, ht, hp, hctor, hapi]
  rw [hcalls]
  simp [buildRequest, enhancementInstruction]

/-- Claim C7 witness: the single call submitted for the concrete POST with
prompt "Write a poem", style "creative", creativity 8. -/
theorem C7_witness :
    (enhancePromptHandler "POST"
        (.obj (some (.jstr "Write a poem")) (some (.jstr "creative")) (some (.jnum 8)))
        stubEffects).calls =
      [{ model := ""
       , messages :=
          [ { role := "system", content := .jstr ("Enhance the following prompt using "
                ++ jsToString (.jstr "creative") ++ " style with creativity level "
                ++ jsToString (.jnum 8)
                ++ "/10.\nApply prompt engineering best practices to make it more effective for AI interaction.\nReturn only the enhanced prompt without any additional explanations.") }
          , { role := "user", content := .jstr "Write a poem" } ]
       , temperature := 0.7 }] :=
  C7_single_request_messages (.jstr "Write a poem") (.jstr "creative") (.jnum 8)
    stubEffects rfl rfl

/-- Claim C8: for a POST whose body is absent (undefined), null, a
primitive, or an object whose prompt field is falsy, the handler returns
the normal 400 Missing prompt response (and in particular never reaches
the modelled throwing path of destructuring undefined or null, because the
body is first defaulted to an empty object). -/
theorem C8_defaulted_body_yields_400 (reqBody : JSVal) (eff : Effects)
    (h : reqBody = .undefined ∨ reqBody = .null ∨ (∃ b, reqBody = .jbool b)
       ∨ (∃ q, reqBody = .jnum q) ∨ (∃ s, reqBody = .jstr s)
       ∨ (∃ p s c, reqBody = .obj p s c ∧ truthy (p.getD .undefined) = false)) :
    enhancePromptHandler "POST" reqBody eff =
      ⟨⟨400, some (.errorMsg "Missing prompt")⟩, []⟩ := by
  rcases h with rfl | rfl | ⟨b, rfl⟩ | ⟨q, rfl⟩ | ⟨s, rfl⟩ | ⟨p, s, c, rfl, hp⟩
  · rfl
  · rfl
  · cases b <;> rfl
  · cases htr : truthy (JSVal.jnum q) <;>
      simp_all [enhancePromptHandler, jsDestructure, truthy]
  · cases htr : truthy (JSVal.jstr s) <;>
      simp_all [enhancePromptHandler, jsDestructure, truthy]
  · have ht : truthy (JSVal.obj p s c) = true := rfl
    simp [enhancePromptHandler, jsDestructure, ht, hp]

/-- Claim C8 witness: a POST with no body at all (undefined) yields the
400 Missing prompt response. -/
theorem C8_witness :
    enhancePromptHandler "POST" .undefined stubEffects =
      ⟨⟨400, some (.errorMsg "Missing prompt")⟩, []⟩ :=
  C8_defaulted_body_yields_400 .undefined stubEffects (Or.inl rfl)

/-- Claim C9: whenever the textarea value is empty after trimming, the
client controller appends the local alert "Please enter a prompt.",
changes nothing else, and issues zero network calls. -/
theorem C9_empty_prompt_alert (st : ClientState) (doFetch : FetchRequest → FetchOutcome)
    (h : jsTrim st.promptValue = "") :
    enhancePromptClient st doFetch =
      ({ st with alerts := st.alerts ++ ["Please enter a prompt."] }, []) := by
  simp [enhancePromptClient, h]

/-- Claim C9 witness: the concrete whitespace-only textarea triggers the
alert and no fetch. -/
theorem C9_witness :
    enhancePromptClient
        { promptValue := "   ", styleValue := "concise", creativityValue := 5
        , loaderHidden := true, enhanceDisabled := false, resultText := ""
        , alerts := [] } (fun _ => .reject "unreachable") =
      ({ promptValue := "   ", styleValue := "concise", creativityValue := 5
       , loaderHidden := true, enhanceDisabled := false, resultText := ""
       , alerts := ["Please enter a prompt."] }, []) :=
  C9_empty_prompt_alert
    { promptValue := "   ", styleValue := "concise", creativityValue := 5
    , loaderHidden := true, enhanceDisabled := false, resultText := ""
    , alerts := [] } (fun _ => .reject "unreachable") rfl

/-- Claim C10: whenever the trimmed textarea is non-empty — precisely the
executions that enter the busy state — the final DOM state has the loader
hidden and the trigger button re-enabled, for every fetch outcome:
success, non-success HTTP response, JSON-decoding rejection, and
transport failure. -/
theorem C10_busy_state_cleared (st : ClientState) (doFetch : FetchRequest → FetchOutcome)
    (h : jsTrim st.promptValue ≠ "") :
    (enhancePromptClient st doFetch).1.loaderHidden = true
      ∧ (enhancePromptClient st doFetch).1.enhanceDisabled = false := by
  unfold enhancePromptClient
  rcases hf : doFetch ⟨jsTrim st.promptValue, st.styleValue, st.creativityValue⟩
    with ⟨ok, jsonResult⟩ | ⟨msg⟩
  · rcases jsonResult with e | data <;> simp [h, hf]
  · simp [h, hf]

/-- Claim C10 witness: a concrete run with a non-empty prompt and a
transport failure still ends with the loader hidden and the button
enabled. -/
theorem C10_witness :
    (enhancePromptClient
        { promptValue := "Write a poem", styleValue := "creative", creativityValue := 8
        , loaderHidden := true, enhanceDisabled := false, resultText := ""
        , alerts := [] } (fun _ => .reject "network down")).1.loaderHidden = true
      ∧ (enhancePromptClient
        { promptValue := "Write a poem", styleValue := "creative", creativityValue := 8
        , loaderHidden := true, enhanceDisabled := false, resultText := ""
        , alerts := [] } (fun _ => .reject "network down")).1.enhanceDisabled = false :=
  C10_busy_state_cleared
    { promptValue := "Write a poem", styleValue := "creative", creativityValue := 8
    , loaderHidden := true, enhanceDisabled := false, resultText := ""
    , alerts := [] } (fun _ => .reject "network down") (by decide)
